import Mathlib

/-!
Verification development for the ski-resort snow scraper's extraction engine
(`scrapers.py`).  The Python code is shallowly embedded: network fetching is
abstracted into a `String → Option Doc` capability, the HTML-parser accessors
become fields of `Doc`, Python dicts become an option-valued record, and the
`re` library is embedded as a small backtracking matcher over an explicit
pattern AST with Python's leftmost, first-alternative, greedy/lazy semantics.
All arithmetic is exact (ℕ/ℤ/ℚ), matching the integer values the scraper
manipulates.
-/

namespace SnowScraper

/-- Python `int()` truncation toward zero, on an exact rational (computable form:
truncating division of numerator by denominator). -/
def pyint (q : ℚ) : ℤ := q.num.tdiv q.den

/-- Embeds `SnowDataScraper.inches_to_cm`: `int(inches * 2.54)`. -/
def inches_to_cm (x : ℚ) : ℤ := pyint (x * (2.54 : ℚ))

/-- Inch conversion at the natural-number values the extraction strategies feed
it: `int(n * 2.54) = n * 254 / 100` for non-negative integers (the lemma
`natCm_eq_inches_to_cm` below ties this to `inches_to_cm`). -/
def natCm (n : ℕ) : ℕ := n * 254 / 100

/-- The unit-conversion step exactly as each strategy performs it:
`if <inch unit detected>: value = self.inches_to_cm(value)`, else unchanged. -/
def applyLenUnit (v : ℕ) (isInch : Bool) : ℕ := if isInch then natCm v else v

/-- Round half to even (Python `round` tie behaviour) on an exact rational,
computed on the numerator and denominator: `q.num / q.den` is the floor and
`q.num % q.den` the fractional remainder scaled by the denominator. -/
def rndHalfEven (q : ℚ) : ℤ :=
  if 2 * (q.num % (q.den : ℤ)) < (q.den : ℤ) then q.num / (q.den : ℤ)
  else if (q.den : ℤ) < 2 * (q.num % (q.den : ℤ)) then q.num / (q.den : ℤ) + 1
  else if q.num / (q.den : ℤ) % 2 = 0 then q.num / (q.den : ℤ)
  else q.num / (q.den : ℤ) + 1

/-- Embeds `SnowDataScraper.fahrenheit_to_celsius`: `round((fahrenheit - 32) * 5/9, 1)`. -/
def fahrenheit_to_celsius (x : ℚ) : ℚ := (rndHalfEven ((x - 32) * 5 / 9 * 10) : ℚ) / 10

/-- Lower-case a character list, as Python `str.lower()` does on ASCII text. -/
def lowerL (l : List Char) : List Char := l.map Char.toLower

/-- Python `\s` / `str.strip` whitespace set. -/
def isWs (c : Char) : Bool :=
  c == ' ' || c == '\t' || c == '\n' || c == '\r' || c == '\x0b' || c == '\x0c'

/-- Python `str.strip()`. -/
def stripWs (l : List Char) : List Char :=
  ((l.dropWhile (fun c => isWs c)).reverse.dropWhile (fun c => isWs c)).reverse

/-- Whether the first list starts the second (auxiliary for substring search). -/
def leadsL : List Char → List Char → Bool
  | [], _ => true
  | _ :: _, [] => false
  | a :: as, b :: bs => a == b && leadsL as bs

/-- Python substring containment `needle in hay`. -/
def subL (nd : List Char) : List Char → Bool
  | [] => nd.isEmpty
  | c :: rest => leadsL nd (c :: rest) || subL nd rest

/-- Decimal value of a digit list (accumulator form). -/
def digitsToNat : List Char → ℕ → ℕ
  | [], acc => acc
  | c :: rest, acc => digitsToNat rest (acc * 10 + (c.toNat - 48))

/-- Python `int` on a non-empty all-digit string. -/
def parseNatL (l : List Char) : Option ℕ :=
  if l.isEmpty then none
  else if l.all Char.isDigit then some (digitsToNat l 0) else none

/-- Python `int` on an optionally minus-signed digit string. -/
def parseIntL : List Char → Option ℤ
  | '-' :: rest => (parseNatL rest).map (fun n => -(n : ℤ))
  | l => (parseNatL l).map (fun n => (n : ℤ))

/-- First maximal digit run of a string, the effect of `re.search(r'(\d+)', text)`. -/
def firstDigitRun : List Char → Option ℕ
  | [] => none
  | c :: rest =>
    if c.isDigit then some (digitsToNat ((c :: rest).takeWhile Char.isDigit) 0)
    else firstDigitRun rest

/-- Embeds `SnowDataScraper.extract_number`: strip commas, take the first digit run. -/
def extract_number (s : String) : Option ℕ :=
  firstDigitRun (s.data.filter (fun c => c != ','))

/-- Pattern AST covering the regular-expression constructs `scrapers.py` uses:
character classes, concatenation, alternation (first alternative preferred),
greedy and lazy repetition, capture groups and the end anchor. -/
inductive RE : Type where
  | eps : RE
  | cls : (Char → Bool) → RE
  | cat : RE → RE → RE
  | alt : RE → RE → RE
  | star : Bool → RE → RE
  | grp : ℕ → RE → RE
  | eos : RE

/-- Capture records: (group index, start position, stop position), most recent first. -/
abbrev Caps := List (ℕ × ℕ × ℕ)

/-- Fuel-bounded backtracking matcher in continuation style, implementing the
leftmost, first-alternative, greedy/lazy backtracking semantics of Python `re`.
The fuel bounds the depth of one candidate path; failed branches restart from
the branch point's fuel, so a fuel linear in the subject length is sufficient
for the repository's patterns (whose repeated bodies all consume a character). -/
def reRun : ℕ → RE → List Char → ℕ → Caps →
    (List Char → ℕ → Caps → Option (ℕ × Caps)) → Option (ℕ × Caps)
  | 0, _, _, _, _, _ => none
  | _ + 1, .eps, s, i, cs, k => k s i cs
  | _ + 1, .eos, [], i, cs, k => k [] i cs
  | _ + 1, .eos, _ :: _, _, _, _ => none
  | _ + 1, .cls _, [], _, _, _ => none
  | _ + 1, .cls p, c :: rest, i, cs, k => if p c then k rest (i + 1) cs else none
  | f + 1, .cat a b, s, i, cs, k =>
      reRun f a s i cs (fun s2 i2 cs2 => reRun f b s2 i2 cs2 k)
  | f + 1, .alt a b, s, i, cs, k =>
      match reRun f a s i cs k with
      | some r => some r
      | none => reRun f b s i cs k
  | f + 1, .star lz a, s, i, cs, k =>
      if lz then
        match k s i cs with
        | some r => some r
        | none => reRun f a s i cs (fun s2 i2 cs2 => reRun f (.star lz a) s2 i2 cs2 k)
      else
        match reRun f a s i cs (fun s2 i2 cs2 => reRun f (.star lz a) s2 i2 cs2 k) with
        | some r => some r
        | none => k s i cs
  | f + 1, .grp n a, s, i, cs, k =>
      reRun f a s i cs (fun s2 i2 cs2 => k s2 i2 ((n, i, i2) :: cs2))

/-- One regex match: span of group 0 plus the capture records. -/
structure MRes where
  ms : ℕ
  me : ℕ
  caps : Caps
deriving DecidableEq

/-- Attempt an anchored match of `r` at absolute position `i` (remaining input `s`). -/
def reTry (f : ℕ) (r : RE) (s : List Char) (i : ℕ) : Option (ℕ × Caps) :=
  reRun f r s i [] (fun _ e cs => some (e, cs))

/-- Scan for the leftmost match from position `i` on, Python `re.search` semantics. -/
def reScanFrom (f : ℕ) (r : RE) : List Char → ℕ → Option MRes
  | [], i =>
    match reTry f r [] i with
    | some (e, cs) => some ⟨i, e, cs⟩
    | none => none
  | s@(_ :: rest), i =>
    match reTry f r s i with
    | some (e, cs) => some ⟨i, e, cs⟩
    | none => reScanFrom f r rest (i + 1)

/-- Python `re.search` over a whole subject. -/
def reSearch (f : ℕ) (r : RE) (t : List Char) : Option MRes :=
  reScanFrom f r t 0

/-- Auxiliary for `reIter`: successive non-overlapping matches from a position. -/
def reIterAux (f : ℕ) (r : RE) (t : List Char) : ℕ → List Char → ℕ → List MRes
  | 0, _, _ => []
  | n + 1, s, i =>
    match reScanFrom f r s i with
    | none => []
    | some m =>
      let nxt := if m.ms < m.me then m.me else m.me + 1
      m :: reIterAux f r t n (t.drop nxt) nxt

/-- Python `re.finditer`: all non-overlapping matches, leftmost first. -/
def reIter (f : ℕ) (r : RE) (t : List Char) : List MRes :=
  reIterAux f r t (t.length + 1) t 0

/-- Look up the most recent record of a capture group. -/
def capLookup : Caps → ℕ → Option (ℕ × ℕ)
  | [], _ => none
  | (g, a, b) :: rest, n => if g == n then some (a, b) else capLookup rest n

/-- Slice of the subject between absolute positions. -/
def sliceL (t : List Char) (a b : ℕ) : List Char := (t.drop a).take (b - a)

/-- Text of capture group `n` of a match (empty when the group is absent). -/
def grpStr (t : List Char) (m : MRes) (n : ℕ) : List Char :=
  match capLookup m.caps n with
  | some (a, b) => sliceL t a b
  | none => []

/-- Text of the whole match, Python `match.group(0)`. -/
def g0 (t : List Char) (m : MRes) : List Char := sliceL t m.ms m.me

/-- Fuel sufficient for one backtracking path over the repository's patterns. -/
def FU (t : List Char) : ℕ := 5 * t.length + 500

/-- Single literal character. -/
def chr (c : Char) : RE := .cls (fun x => x == c)

/-- Single literal character, case-insensitive. -/
def chri (c : Char) : RE := .cls (fun x => x.toLower == c.toLower)

/-- Literal string. -/
def strRe (s : String) : RE := s.data.foldr (fun c acc => .cat (chr c) acc) .eps

/-- Literal string, case-insensitive (patterns compiled with `re.IGNORECASE`). -/
def strRei (s : String) : RE := s.data.foldr (fun c acc => .cat (chri c) acc) .eps

/-- Concatenation of a pattern list. -/
def catL (l : List RE) : RE := l.foldr .cat .eps

/-- Alternation of a pattern list, first alternative preferred. -/
def altL : List RE → RE
  | [] => .cls (fun _ => false)
  | [r] => r
  | r :: rest => .alt r (altL rest)

/-- Greedy option, `r?`. -/
def reOpt (r : RE) : RE := .alt r .eps

/-- Single digit, `\d`. -/
def digitRe : RE := .cls Char.isDigit

/-- One or more digits, `\d+` (greedy). -/
def dplus : RE := .cat digitRe (.star false digitRe)

/-- Single whitespace, `\s`. -/
def wsRe : RE := .cls isWs

/-- Zero or more whitespace, `\s*`. -/
def ws0 : RE := .star false wsRe

/-- One or more whitespace, `\s+`. -/
def ws1 : RE := .cat wsRe ws0

/-- Single colon-or-whitespace, the class `[:\s]`. -/
def colWsRe : RE := .cls (fun c => c == ':' || isWs c)

/-- `[:\s]+`. -/
def colWs1 : RE := .cat colWsRe (.star false colWsRe)

/-- Any character other than newline, `.` without DOTALL. -/
def anyCh : RE := .cls (fun c => c != '\n')

/-- Lazy any-run, `.*?`. -/
def lazyAny : RE := .star true anyCh

/-- Capturing digit run, `(\d+)` as group 1. -/
def cap1d : RE := .grp 1 dplus

/-- Strategy-4 unit alternation `(?:in|inch|"|cm)` (IGNORECASE patterns). -/
def unitAltI : RE := altL [strRei "in", strRei "inch", chr '"', strRei "cm"]

/-- Meta-tag number/unit pattern `(\d+)\s*(in|inch|cm|")` on lower-cased content. -/
def metaNumUnit : RE :=
  catL [.grp 1 dplus, ws0, .grp 2 (altL [strRe "in", strRe "inch", strRe "cm", chr '"'])]

/-- Document-level inch signal `\d+\s*(?:in|inch|")` (case-sensitive). -/
def inchesSig : RE := catL [dplus, ws0, altL [strRe "in", strRe "inch", chr '"']]

/-- Class-heuristic base keyword `base|lower|bottom` (IGNORECASE). -/
def baseKw3 : RE := altL [strRei "base", strRei "lower", strRei "bottom"]

/-- Class-heuristic summit keyword `summit|top|upper|peak` (IGNORECASE). -/
def summitKw3 : RE := altL [strRei "summit", strRei "top", strRei "upper", strRei "peak"]

/-- Class-heuristic depth token `(\d+)\s*(?:in|inch|"|cm)` (IGNORECASE). -/
def depthRe3 : RE := catL [.grp 1 dplus, ws0, unitAltI]

/-- `base[:\s]+(\d+)\s*(?:in|inch|"|cm)`. -/
def pBase1 : RE := catL [strRei "base", colWs1, cap1d, ws0, unitAltI]

/-- `(?:lower|bottom)[:\s]+(\d+)\s*(?:in|inch|"|cm)`. -/
def pBase2 : RE := catL [altL [strRei "lower", strRei "bottom"], colWs1, cap1d, ws0, unitAltI]

/-- `(\d+)\s*(?:in|inch|"|cm)[:\s]+base`. -/
def pBase3 : RE := catL [cap1d, ws0, unitAltI, colWs1, strRei "base"]

/-- `base\s+depth[:\s]+(\d+)`. -/
def pBase4 : RE := catL [strRei "base", ws1, strRei "depth", colWs1, cap1d]

/-- `snow\s+depth.*?base.*?(\d+)`. -/
def pBase5 : RE := catL [strRei "snow", ws1, strRei "depth", lazyAny, strRei "base", lazyAny, cap1d]

/-- `summit[:\s]+(\d+)\s*(?:in|inch|"|cm)`. -/
def pSum1 : RE := catL [strRei "summit", colWs1, cap1d, ws0, unitAltI]

/-- `(?:top|upper|peak)[:\s]+(\d+)\s*(?:in|inch|"|cm)`. -/
def pSum2 : RE := catL [altL [strRei "top", strRei "upper", strRei "peak"], colWs1, cap1d, ws0, unitAltI]

/-- `(\d+)\s*(?:in|inch|"|cm)[:\s]+(?:summit|top)`. -/
def pSum3 : RE := catL [cap1d, ws0, unitAltI, colWs1, altL [strRei "summit", strRei "top"]]

/-- `summit\s+depth[:\s]+(\d+)`. -/
def pSum4 : RE := catL [strRei "summit", ws1, strRei "depth", colWs1, cap1d]

/-- `(?:24|twenty.?four)`. -/
def t24 : RE := altL [strRe "24", catL [strRei "twenty", reOpt anyCh, strRei "four"]]

/-- `(?:hr|hour|h)`. -/
def hrAlt : RE := altL [strRei "hr", strRei "hour", strRei "h"]

/-- `(?:24|twenty.?four)\s*(?:hr|hour|h)[:\s]+(\d+)`. -/
def pN1 : RE := catL [t24, ws0, hrAlt, colWs1, cap1d]

/-- `overnight[:\s]+(\d+)`. -/
def pN2 : RE := catL [strRei "overnight", colWs1, cap1d]

/-- `last\s+24[:\s]+(\d+)`. -/
def pN3 : RE := catL [strRei "last", ws1, strRe "24", colWs1, cap1d]

/-- `new\s+snow[:\s]+(\d+)`. -/
def pN4 : RE := catL [strRei "new", ws1, strRei "snow", colWs1, cap1d]

/-- `(?:24|twenty.?four)\s*(?:hr|hour|h).*?(\d+)\s*(?:in|inch|"|cm)`. -/
def pN5 : RE := catL [t24, ws0, hrAlt, lazyAny, cap1d, ws0, unitAltI]

/-- `(\d+)\s*(?:in|inch|"|cm).*?(?:24|overnight|new)`. -/
def pN6 : RE := catL [cap1d, ws0, unitAltI, lazyAny, altL [strRe "24", strRei "overnight", strRei "new"]]

/-- `(?:48|forty.?eight)`. -/
def t48 : RE := altL [strRe "48", catL [strRei "forty", reOpt anyCh, strRei "eight"]]

/-- `(?:48|forty.?eight)\s*(?:hr|hour|h)[:\s]+(\d+)`. -/
def pF1 : RE := catL [t48, ws0, hrAlt, colWs1, cap1d]

/-- `(?:2|two)\s+day[:\s]+(\d+)`. -/
def pF2 : RE := catL [altL [strRe "2", strRei "two"], ws1, strRei "day", colWs1, cap1d]

/-- `last\s+48[:\s]+(\d+)`. -/
def pF3 : RE := catL [strRei "last", ws1, strRe "48", colWs1, cap1d]

/-- `(?:7|seven)\s+day[:\s]+(\d+)`. -/
def pW1 : RE := catL [altL [strRe "7", strRei "seven"], ws1, strRei "day", colWs1, cap1d]

/-- `week[:\s]+(\d+)`. -/
def pW2 : RE := catL [strRei "week", colWs1, cap1d]

/-- `last\s+week[:\s]+(\d+)`. -/
def pW3 : RE := catL [strRei "last", ws1, strRei "week", colWs1, cap1d]

/-- `(\d+)\s*(?:of|/)\s*(\d+)\s+(?:lift|chair)` (IGNORECASE). -/
def liftsRe : RE :=
  catL [.grp 1 dplus, ws0, altL [strRei "of", chr '/'], ws0, .grp 2 dplus, ws1,
    altL [strRei "lift", strRei "chair"]]

/-- `(\d+)\s*(?:of|/)\s*(\d+)\s+(?:trail|run|piste)` (IGNORECASE). -/
def runsRe : RE :=
  catL [.grp 1 dplus, ws0, altL [strRei "of", chr '/'], ws0, .grp 2 dplus, ws1,
    altL [strRei "trail", strRei "run", strRei "piste"]]

/-- `°?`. -/
def degOpt : RE := reOpt (chr '°')

/-- `(?:\s|$|\.)`. -/
def endWsDot : RE := altL [wsRe, .eos, chr '.']

/-- Fahrenheit token `(\d+)\s*°?\s*[fF](?:\s|$|\.)` (case-sensitive search). -/
def tempFRe : RE := catL [cap1d, ws0, degOpt, ws0, .cls (fun c => c == 'f' || c == 'F'), endWsDot]

/-- Celsius token `(-?\d+)\s*°?\s*[cC](?:\s|$|\.)` (case-sensitive search). -/
def tempCRe : RE :=
  catL [.grp 1 (.cat (reOpt (chr '-')) dplus), ws0, degOpt, ws0,
    .cls (fun c => c == 'c' || c == 'C'), endWsDot]

/-- Bare label `temp(?:erature)?[:\s]+(\d+)` (case-sensitive search). -/
def tempLbl : RE := catL [strRe "temp", reOpt (strRe "erature"), colWs1, cap1d]

/-- Abstraction of one fetched, parsed page: the results of the structural
accessors `scrapers.py` applies to the soup, plus the flattened text.
`dataSnow` holds the `data-snow` attribute values in document order; `metas`
holds, per meta element, the concatenated name/property and the content;
`snowContainers` holds the stripped-to-be text of elements whose class matches
`snow|depth|powder|condition`; `vailElems` holds, for the Vail selectors in
iteration order, each element's text and the string form of its parent. -/
structure Doc where
  dataSnow : List String
  metas : List (String × String)
  snowContainers : List String
  vailElems : List (String × String)
  text : String
deriving DecidableEq

/-- The scraper's result dict: every key the code can set, absent = not in the dict. -/
structure Rec where
  scraped_url : Option String
  scrape_date : Option ℕ
  snow_depth_base_cm : Option ℕ
  snow_depth_summit_cm : Option ℕ
  new_snow_24h_cm : Option ℕ
  new_snow_48h_cm : Option ℕ
  new_snow_7d_cm : Option ℕ
  lifts_open : Option ℕ
  lifts_total : Option ℕ
  runs_open : Option ℕ
  runs_total : Option ℕ
  temperature_base_c : Option ℚ
deriving DecidableEq

/-- The wholly empty dict `{}`. -/
def emptyRec : Rec :=
  { scraped_url := none, scrape_date := none, snow_depth_base_cm := none,
    snow_depth_summit_cm := none, new_snow_24h_cm := none, new_snow_48h_cm := none,
    new_snow_7d_cm := none, lifts_open := none, lifts_total := none,
    runs_open := none, runs_total := none, temperature_base_c := none }

/-- The dict `{'scraped_url': url, 'scrape_date': date.today()}` both parsers start from. -/
def initRec (url : String) (today : ℕ) : Rec :=
  { emptyRec with scraped_url := some url, scrape_date := some today }

/-- Python truthiness of an optional integer dict entry (`0` and absent are falsy). -/
def truthyN : Option ℕ → Bool
  | some v => v != 0
  | none => false

/-- Heterogeneous dict values, for faithful string-keyed lookups. -/
inductive PyVal : Type where
  | vn : ℕ → PyVal
  | vq : ℚ → PyVal
  | vs : String → PyVal
  | vd : ℕ → PyVal
deriving DecidableEq

/-- Python truthiness of a `dict.get` result. -/
def truthyV : Option PyVal → Bool
  | some (.vn n) => n != 0
  | some (.vq q) => q != 0
  | some (.vs s) => s != ""
  | some (.vd _) => true
  | none => false

/-- String-keyed `data.get(k)` over the record: returns the entry for a known,
present key and `none` for any other string (dict semantics). -/
def Rec.getStr (r : Rec) (k : String) : Option PyVal :=
  if k == "scraped_url" then r.scraped_url.map PyVal.vs
  else if k == "scrape_date" then r.scrape_date.map PyVal.vd
  else if k == "snow_depth_base_cm" then r.snow_depth_base_cm.map PyVal.vn
  else if k == "snow_depth_summit_cm" then r.snow_depth_summit_cm.map PyVal.vn
  else if k == "new_snow_24h_cm" then r.new_snow_24h_cm.map PyVal.vn
  else if k == "new_snow_48h_cm" then r.new_snow_48h_cm.map PyVal.vn
  else if k == "new_snow_7d_cm" then r.new_snow_7d_cm.map PyVal.vn
  else if k == "lifts_open" then r.lifts_open.map PyVal.vn
  else if k == "lifts_total" then r.lifts_total.map PyVal.vn
  else if k == "runs_open" then r.runs_open.map PyVal.vn
  else if k == "runs_total" then r.runs_total.map PyVal.vn
  else if k == "temperature_base_c" then r.temperature_base_c.map PyVal.vq
  else none

/-- Python `key.replace('_', '')` for the strategy-4 "already found" lookups. -/
def stripUnd (s : String) : String := String.mk (s.data.filter (fun c => c != '_'))

/-- Embeds `find_json_data`'s contribution: the JSON-LD loop only logs, so the
strategy's output is the last truthy `extract_number` of a `data-snow`
attribute, stored under `new_snow_24h_cm`. -/
def find_json_data (attrs : List String) : Option ℕ :=
  attrs.foldl
    (fun acc s =>
      match extract_number s with
      | some v => if v != 0 then some v else acc
      | none => acc)
    none

/-- Fold step of `extract_from_meta_tags` for one meta element. -/
def metaStep (acc : Option ℕ × Option ℕ) (m : String × String) : Option ℕ × Option ℕ :=
  let content := lowerL m.2.data
  let nm := lowerL m.1.data
  if subL "snow".data nm || subL "snow".data content then
    match reSearch (FU content) metaNumUnit content with
    | some mm =>
      match parseNatL (grpStr content mm 1) with
      | some v =>
        let unit := grpStr content mm 2
        let v := applyLenUnit v (subL "in".data unit || subL "\"".data unit)
        if subL "base".data content then (some v, acc.2)
        else if subL "new".data content || subL "fresh".data content then (acc.1, some v)
        else acc
      | none => acc
    | none => acc
  else acc

/-- Embeds `extract_from_meta_tags`: (base-depth entry, 24h-snow entry);
later qualifying meta elements overwrite earlier ones, as the dict writes do. -/
def extract_from_meta_tags (metas : List (String × String)) : Option ℕ × Option ℕ :=
  metas.foldl metaStep (none, none)

/-- Fold `data.update(json_data)` into the record. -/
def updJson (r : Rec) (j : Option ℕ) : Rec :=
  match j with
  | some v => { r with new_snow_24h_cm := some v }
  | none => r

/-- Fold `data.update(meta_data)` into the record: present keys overwrite. -/
def updMeta (r : Rec) (p : Option ℕ × Option ℕ) : Rec :=
  let r1 := match p.1 with
    | some v => { r with snow_depth_base_cm := some v }
    | none => r
  match p.2 with
  | some v => { r1 with new_snow_24h_cm := some v }
  | none => r1

/-- Base-depth block of one strategy-3 container: keyword check, depth token,
`not data.get('snow_depth_base_cm')` guard, unit conversion. -/
def strat3Base (txt : List Char) (r : Rec) : Rec :=
  if (reSearch (FU txt) baseKw3 txt).isSome then
    match reSearch (FU txt) depthRe3 txt with
    | some m =>
      if !truthyN r.snow_depth_base_cm then
        match parseNatL (grpStr txt m 1) with
        | some v =>
          let unit := lowerL (g0 txt m)
          let v2 := applyLenUnit v (subL "in".data unit || subL "\"".data unit)
          { r with snow_depth_base_cm := some v2 }
        | none => r
      else r
    | none => r
  else r

/-- Summit-depth block of one strategy-3 container, mirroring `strat3Base`. -/
def strat3Summit (txt : List Char) (r : Rec) : Rec :=
  if (reSearch (FU txt) summitKw3 txt).isSome then
    match reSearch (FU txt) depthRe3 txt with
    | some m =>
      if !truthyN r.snow_depth_summit_cm then
        match parseNatL (grpStr txt m 1) with
        | some v =>
          let unit := lowerL (g0 txt m)
          let v2 := applyLenUnit v (subL "in".data unit || subL "\"".data unit)
          { r with snow_depth_summit_cm := some v2 }
        | none => r
      else r
    | none => r
  else r

/-- One container of strategy 3 (class-heuristic): the stripped text runs
through the base block, then the summit block. -/
def strat3Step (r : Rec) (t : String) : Rec :=
  strat3Summit (stripWs t.data) (strat3Base (stripWs t.data) r)

/-- Embeds strategy 3: the loop over snow-class containers. -/
def strat3 (conts : List String) (r : Rec) : Rec := conts.foldl strat3Step r

/-- Strategy-4 field assignment `data[<mapped key>] = value`. -/
def assignKey (key : String) (v : ℕ) (r : Rec) : Rec :=
  if key == "base_depth" then { r with snow_depth_base_cm := some v }
  else if key == "summit_depth" then { r with snow_depth_summit_cm := some v }
  else if key == "24h_snow" then { r with new_snow_24h_cm := some v }
  else if key == "48h_snow" then { r with new_snow_48h_cm := some v }
  else if key == "7d_snow" then { r with new_snow_7d_cm := some v }
  else r

/-- Strategy-4 per-match loop: first match that parses and passes the sanity
bound is assigned (then `break`); failing matches `continue`. -/
def tryMatches (isInches : Bool) (text : List Char) (key : String) :
    List MRes → Rec → Rec
  | [], r => r
  | m :: ms, r =>
    match parseNatL (grpStr text m 1) with
    | none => tryMatches isInches text key ms r
    | some value =>
      let fm := lowerL (g0 text m)
      let value := applyLenUnit value
        ((subL "in".data fm || subL "\"".data fm) || (isInches && !subL "cm".data fm))
      if (key == "base_depth" || key == "summit_depth") && (value < 5 || 1000 < value) then
        tryMatches isInches text key ms r
      else if (key == "24h_snow" || key == "48h_snow" || key == "7d_snow") && 300 < value then
        tryMatches isInches text key ms r
      else assignKey key value r

/-- Strategy-4 per-pattern loop, including the source's
`if data.get(key.replace('_', '')): break` check after each pattern. -/
def tryPats (isInches : Bool) (text : List Char) (key : String) :
    List RE → Rec → Rec
  | [], r => r
  | p :: ps, r =>
    let r2 := tryMatches isInches text key (reIter (FU text) p text) r
    if truthyV (r2.getStr (stripUnd key)) then r2
    else tryPats isInches text key ps r2

/-- The ordered strategy-4 pattern table of `scrapers.py`. -/
def patTable : List (String × List RE) :=
  [("base_depth", [pBase1, pBase2, pBase3, pBase4, pBase5]),
   ("summit_depth", [pSum1, pSum2, pSum3, pSum4]),
   ("24h_snow", [pN1, pN2, pN3, pN4, pN5, pN6]),
   ("48h_snow", [pF1, pF2, pF3]),
   ("7d_snow", [pW1, pW2, pW3])]

/-- Strategy-4 outer loop over the pattern table, including the source's
`if data.get(key.replace('_', '')): continue` skip check. -/
def strat4Go (isInches : Bool) (text : List Char) :
    List (String × List RE) → Rec → Rec
  | [], r => r
  | (k, ps) :: rest, r =>
    let r2 := if truthyV (r.getStr (stripUnd k)) then r else tryPats isInches text k ps r
    strat4Go isInches text rest r2

/-- Embeds strategy 4 (full-text regex search), with the document-level
inch inference over the first 1000 characters. -/
def strat4 (text : List Char) (r : Rec) : Rec :=
  let isInches := (reSearch (FU (text.take 1000)) inchesSig (text.take 1000)).isSome
  strat4Go isInches text patTable r

/-- Embeds strategy 5: the lift-ratio and run-ratio searches, each assigning
both halves of its pair from one match. -/
def liftsRuns (text : List Char) (r : Rec) : Rec :=
  let r1 :=
    match reSearch (FU text) liftsRe text with
    | some m =>
      match parseNatL (grpStr text m 1), parseNatL (grpStr text m 2) with
      | some a, some b => { r with lifts_open := some a, lifts_total := some b }
      | _, _ => r
    | none => r
  match reSearch (FU text) runsRe text with
  | some m =>
    match parseNatL (grpStr text m 1), parseNatL (grpStr text m 2) with
    | some a, some b => { r1 with runs_open := some a, runs_total := some b }
    | _, _ => r1
  | none => r1

/-- Embeds strategy 6's pattern selection: the first of the three temperature
patterns with a match anywhere in the text (`re.search`, no IGNORECASE). -/
def tempRes (text : List Char) : Option MRes :=
  match reSearch (FU text) tempFRe text with
  | some m => some m
  | none =>
    match reSearch (FU text) tempCRe text with
    | some m => some m
    | none => reSearch (FU text) tempLbl text

/-- Embeds strategy 6: temperature extraction with the Fahrenheit default for
values above 50. -/
def tempStep (text : List Char) (r : Rec) : Rec :=
  match tempRes text with
  | none => r
  | some m =>
    match parseIntL (grpStr text m 1) with
    | none => r
    | some t =>
      if subL "f".data (lowerL (g0 text m)) || 50 < t then
        { r with temperature_base_c := some (fahrenheit_to_celsius (t : ℚ)) }
      else
        { r with temperature_base_c := some ((t : ℚ)) }

/-- The merged record after the first three strategies (JSON data, meta tags,
class heuristics), before the full-text stages. -/
def pre4 (d : Doc) (url : String) (today : ℕ) : Rec :=
  strat3 d.snowContainers
    (updMeta (updJson (initRec url today) (find_json_data d.dataSnow))
      (extract_from_meta_tags d.metas))

/-- Embeds `SnowDataScraper.parse_snow_report_generic`: the full cascade. -/
def parse_snow_report_generic (d : Doc) (url : String) (today : ℕ) : Rec :=
  tempStep d.text.data (liftsRuns d.text.data (strat4 d.text.data (pre4 d url today)))

/-- The resort-metadata fields the scrapers read. -/
structure ResortData where
  snow_report_url : Option String
  website_url : Option String
deriving DecidableEq

/-- Python truthiness of an optional string dict entry. -/
def truthyS : Option String → Bool
  | some s => s != ""
  | none => false

/-- Python `a or b` over the two optional URL entries (first truthy wins). -/
def pyOrS (a b : Option String) : Option String :=
  if truthyS a then a else if truthyS b then b else none

/-- The `urls_to_try` list: snow-report URL if truthy, then website URL if truthy. -/
def candidateUrls (rd : ResortData) : List String :=
  (match rd.snow_report_url with
   | some u => if u != "" then [u] else []
   | none => []) ++
  (match rd.website_url with
   | some u => if u != "" then [u] else []
   | none => [])

/-- The meaningful-data check of `scrape_resort`:
`any(data.get(field) for field in meaningful_fields)` (truthiness, so a
present-but-zero field does not count). -/
def meaningful (r : Rec) : Bool :=
  truthyN r.snow_depth_base_cm || truthyN r.snow_depth_summit_cm ||
    truthyN r.new_snow_24h_cm || truthyN r.lifts_open || truthyN r.runs_open

/-- The candidate-URL loop of `scrape_resort`.  Returns the meaningful record
of the first successful candidate (if any) together with the list of URLs
actually fetched, in order. -/
def tryUrls (fetch : String → Option Doc) (today : ℕ) :
    List String → Option Rec × List String
  | [] => (none, [])
  | u :: rest =>
    match fetch u with
    | none =>
      let p := tryUrls fetch today rest
      (p.1, u :: p.2)
    | some d =>
      let data := parse_snow_report_generic d u today
      if meaningful data then (some data, [u])
      else
        let p := tryUrls fetch today rest
        (p.1, u :: p.2)

/-- Embeds `SnowDataScraper.scrape_resort`: try candidates in order, return the
first meaningful record, else the minimal url/date record.  The second
component is the list of fetched URLs (the observable network behaviour). -/
def scrape_resort (fetch : String → Option Doc) (rd : ResortData) (today : ℕ) :
    Rec × List String :=
  let p := tryUrls fetch today (candidateUrls rd)
  match p.1 with
  | some r => (r, p.2)
  | none =>
    ({ emptyRec with
        scraped_url := pyOrS rd.snow_report_url rd.website_url,
        scrape_date := some today }, p.2)

/-- One element of the Vail-specific selector loop: the first number of the
element text is converted assuming inches and classified by the parent-context
keywords. -/
def vailStep (txt par : String) (r : Rec) : Rec :=
  match firstDigitRun txt.data with
  | none => r
  | some value =>
    let valueCm := natCm value
    let context := lowerL par.data
    if subL "base".data context || subL "lower".data context then
      { r with snow_depth_base_cm := some valueCm }
    else if subL "summit".data context || subL "top".data context ||
        subL "upper".data context then
      { r with snow_depth_summit_cm := some valueCm }
    else r

/-- The Vail-specific selector loop; later elements overwrite earlier ones. -/
def vailPass : List (String × String) → Rec → Rec
  | [], r => r
  | (txt, par) :: rest, r => vailPass rest (vailStep txt par r)

/-- The record produced by the Vail specialized pass alone (url/date plus the
selector loop), before any generic fallback. -/
def vailSpecialized (d : Doc) (url : String) (today : ℕ) : Rec :=
  vailPass d.vailElems (initRec url today)

/-- One field of the Vail fallback merge
`{k: v for k, v in generic_data.items() if k not in data or not data[k]}`:
a present generic value fills an absent or falsy entry. -/
def mergeN (a b : Option ℕ) : Option ℕ :=
  match b with
  | none => a
  | some v => if truthyN a then a else some v

/-- String-valued variant of `mergeN`. -/
def mergeS (a b : Option String) : Option String :=
  match b with
  | none => a
  | some v => if truthyS a then a else some v

/-- Rational-valued variant of `mergeN`. -/
def mergeQ (a b : Option ℚ) : Option ℚ :=
  match b with
  | none => a
  | some v => if (match a with | some q => q != 0 | none => false) then a else some v

/-- Date-valued variant of `mergeN` (a date object is always truthy). -/
def mergeD (a b : Option ℕ) : Option ℕ :=
  match b with
  | none => a
  | some v => if a.isSome then a else some v

/-- The Vail fallback merge over all keys. -/
def mergeRecs (r g : Rec) : Rec :=
  { scraped_url := mergeS r.scraped_url g.scraped_url,
    scrape_date := mergeD r.scrape_date g.scrape_date,
    snow_depth_base_cm := mergeN r.snow_depth_base_cm g.snow_depth_base_cm,
    snow_depth_summit_cm := mergeN r.snow_depth_summit_cm g.snow_depth_summit_cm,
    new_snow_24h_cm := mergeN r.new_snow_24h_cm g.new_snow_24h_cm,
    new_snow_48h_cm := mergeN r.new_snow_48h_cm g.new_snow_48h_cm,
    new_snow_7d_cm := mergeN r.new_snow_7d_cm g.new_snow_7d_cm,
    lifts_open := mergeN r.lifts_open g.lifts_open,
    lifts_total := mergeN r.lifts_total g.lifts_total,
    runs_open := mergeN r.runs_open g.runs_open,
    runs_total := mergeN r.runs_total g.runs_total,
    temperature_base_c := mergeQ r.temperature_base_c g.temperature_base_c }

/-- Embeds `VailResortsScraper.scrape_resort`: single chosen URL, empty dict on
missing URL or failed fetch, specialized pass, generic fallback only when base
depth is still falsy.  The second component is the list of fetched URLs. -/
def vail_scrape (fetch : String → Option Doc) (rd : ResortData) (today : ℕ) :
    Rec × List String :=
  match pyOrS rd.snow_report_url rd.website_url with
  | none => (emptyRec, [])
  | some url =>
    match fetch url with
    | none => (emptyRec, [url])
    | some d =>
      let data := vailSpecialized d url today
      if truthyN data.snow_depth_base_cm then (data, [url])
      else (mergeRecs data (parse_snow_report_generic d url today), [url])

def depthOk (v : ℕ) : Prop := 5 ≤ v ∧ v ≤ 1000

def snowOk (v : ℕ) : Prop := v ≤ 300

def fieldStep (old nw : Option ℕ) (P : ℕ → Prop) : Prop :=
  nw = old ∨ ∃ v, nw = some v ∧ P v

def cascadeStep (r0 r : Rec) : Prop :=
  r.scraped_url = r0.scraped_url ∧ r.scrape_date = r0.scrape_date ∧
  r.lifts_open = r0.lifts_open ∧ r.lifts_total = r0.lifts_total ∧
  r.runs_open = r0.runs_open ∧ r.runs_total = r0.runs_total ∧
  r.temperature_base_c = r0.temperature_base_c ∧
  fieldStep r0.snow_depth_base_cm r.snow_depth_base_cm depthOk ∧
  fieldStep r0.snow_depth_summit_cm r.snow_depth_summit_cm depthOk ∧
  fieldStep r0.new_snow_24h_cm r.new_snow_24h_cm snowOk ∧
  fieldStep r0.new_snow_48h_cm r.new_snow_48h_cm snowOk ∧
  fieldStep r0.new_snow_7d_cm r.new_snow_7d_cm snowOk

/-- Both-or-neither shape of the lift and run count pairs. -/
def bonBoth (r : Rec) : Prop :=
  r.lifts_open.isSome = r.lifts_total.isSome ∧ r.runs_open.isSome = r.runs_total.isSome

/-- A candidate URL that does not produce a meaningful record: either its fetch
fails or the extracted record fails the meaningful-data check. -/
def notMeaningfulUrl (fetch : String → Option Doc) (today : ℕ) (u : String) : Prop :=
  ∀ d, fetch u = some d → meaningful (parse_snow_report_generic d u today) = false

/-- Document whose only content is a meta tag with an out-of-bounds depth. -/
def docMetaHuge : Doc :=
  { dataSnow := [], metas := [("og:description", "snow base: 4000cm")],
    snowContainers := [], vailElems := [], text := "" }

/-- Document where the meta-tag strategy and the regex strategy resolve the
base depth to different values (20 cm vs 100 cm). -/
def docMetaText : Doc :=
  { dataSnow := [], metas := [("og:description", "snow base: 8in")],
    snowContainers := [], vailElems := [], text := "base depth: 100" }

/-- The specification's scenario document. -/
def docScenario : Doc :=
  { dataSnow := [], metas := [], snowContainers := [], vailElems := [],
    text := "Base Depth: 42in, Summit: 61in, 24hr Snowfall: 8in, 5/10 lifts open" }

/-- Document whose lift ratio token has the open count above the total. -/
def docRatio : Doc :=
  { dataSnow := [], metas := [], snowContainers := [], vailElems := [],
    text := "15/10 lifts open" }

/-- Document whose extraction yields a present-but-zero 24h snowfall entry. -/
def docZeroSnow : Doc :=
  { dataSnow := [], metas := [("d", "new snow: 0in")], snowContainers := [],
    vailElems := [], text := "" }

/-- Document yielding a meaningful base depth of 50 cm. -/
def docBase50 : Doc :=
  { dataSnow := [], metas := [], snowContainers := [], vailElems := [],
    text := "base: 50cm" }

/-- Vail document: the selector pass finds a base depth, while the flattened
text would give the generic extractor a summit depth. -/
def docVailBase : Doc :=
  { dataSnow := [], metas := [], snowContainers := [],
    vailElems := [("40", "the base area")], text := "summit: 30cm" }

/-- Vail document with no selector hits and a summit depth in the text. -/
def docSummitOnly : Doc :=
  { dataSnow := [], metas := [], snowContainers := [], vailElems := [],
    text := "summit: 30cm" }

/-- Document whose only temperature token carries a Celsius marker and a value
above 50. -/
def docCelsius60 : Doc :=
  { dataSnow := [], metas := [], snowContainers := [], vailElems := [],
    text := "60 C " }

/-- Fetch capability with a zero-snow first candidate and a meaningful second. -/
def fetchTwo : String → Option Doc := fun u =>
  if u == "u1" then some docZeroSnow else if u == "u2" then some docBase50 else none

/-- Fetch capability that always fails. -/
def fetchFail : String → Option Doc := fun _ => none

/-- Fetch capability serving the Vail base-finding document. -/
def fetchVailBase : String → Option Doc := fun u =>
  if u == "vu" then some docVailBase else none

/-- Fetch capability serving the summit-only Vail document. -/
def fetchSummitOnly : String → Option Doc := fun u =>
  if u == "vu" then some docSummitOnly else none

/-- Fetch capability serving the Celsius-marker document. -/
def fetchCelsius : String → Option Doc := fun u =>
  if u == "ut" then some docCelsius60 else none

/-- Resort with two candidate URLs. -/
def rdTwo : ResortData := { snow_report_url := some "u1", website_url := some "u2" }

/-- Resort with two distinct candidate URLs named a and b. -/
def rdAB : ResortData := { snow_report_url := some "a", website_url := some "b" }

/-- Vail-family resort with a single snow-report URL. -/
def rdVail : ResortData := { snow_report_url := some "vu", website_url := some "w2" }

/-- Resort with one candidate URL. -/
def rdOne : ResortData := { snow_report_url := some "u2", website_url := none }

/-! ### Theorems.  Everything below is proved about the definitions above. -/

theorem pyint_eq_floor (q : ℚ) (h : 0 ≤ q) : pyint q = ⌊q⌋ := by
  unfold pyint
  rw [Int.tdiv_eq_ediv (Rat.num_nonneg.mpr h) (Int.ofNat_nonneg q.den), Rat.floor_def]

/-- Coherence of the ℕ-level conversion used inside the strategies with the
embedded `inches_to_cm` method. -/
theorem natCm_eq_inches_to_cm (n : ℕ) : (natCm n : ℤ) = inches_to_cm (n : ℚ) := by
  have h254 : ((n : ℚ)) * (2.54 : ℚ) = (((n : ℤ) * 254 : ℤ) : ℚ) / ((100 : ℕ) : ℚ) := by
    push_cast
    norm_num
    ring
  unfold inches_to_cm
  rw [pyint_eq_floor _ (by positivity), h254, Rat.floor_intCast_div_natCast]
  unfold natCm
  rw [Int.ofNat_ediv]
  norm_cast

theorem rndHalfEven_abs (q : ℚ) : |(rndHalfEven q : ℚ) - q| ≤ 1 / 2 := by
  have hfl : q.num / (q.den : ℤ) = ⌊q⌋ := (Rat.floor_def).symm
  have hdpos : (0 : ℚ) < (q.den : ℚ) := by exact_mod_cast q.den_pos
  have hnum : (q.num : ℚ) = q * (q.den : ℚ) :=
    (div_eq_iff (ne_of_gt hdpos)).mp (Rat.num_div_den q)
  have hfr : ((q.num % (q.den : ℤ) : ℤ) : ℚ) = (q - ⌊q⌋) * (q.den : ℚ) := by
    rw [Int.emod_def, hfl]
    push_cast
    rw [hnum]
    ring
  have hF0 : (0 : ℚ) ≤ q - ⌊q⌋ := by
    have := Int.floor_le q
    linarith
  have hF1 : q - ⌊q⌋ < 1 := by
    have := Int.lt_floor_add_one q
    push_cast at this
    linarith
  unfold rndHalfEven
  rw [hfl]
  split_ifs with h1 h2 h3
  · have hc : ((2 * (q.num % (q.den : ℤ)) : ℤ) : ℚ) < (((q.den : ℤ)) : ℚ) := by exact_mod_cast h1
    push_cast at hc
    rw [hfr] at hc
    have hfr2 : q - ⌊q⌋ < 1 / 2 := by nlinarith
    rw [abs_le]
    constructor <;> push_cast <;> linarith
  · have hc : (((q.den : ℤ)) : ℚ) < ((2 * (q.num % (q.den : ℤ)) : ℤ) : ℚ) := by exact_mod_cast h2
    push_cast at hc
    rw [hfr] at hc
    have hfr2 : 1 / 2 < q - ⌊q⌋ := by nlinarith
    rw [abs_le]
    constructor <;> push_cast <;> linarith
  all_goals {
    have heq : ((2 * (q.num % (q.den : ℤ)) : ℤ) : ℚ) = (((q.den : ℤ)) : ℚ) := by
      exact_mod_cast le_antisymm (not_lt.mp h2) (not_lt.mp h1)
    push_cast at heq
    rw [hfr] at heq
    have hfr2 : q - ⌊q⌋ = 1 / 2 := by nlinarith
    rw [abs_le]
    constructor <;> push_cast <;> linarith
  }

theorem fahrenheit_within (x : ℚ) :
    |fahrenheit_to_celsius x - (x - 32) * 5 / 9| ≤ 1 / 20 := by
  have h := rndHalfEven_abs ((x - 32) * 5 / 9 * 10)
  unfold fahrenheit_to_celsius
  have hrw : (rndHalfEven ((x - 32) * 5 / 9 * 10) : ℚ) / 10 - (x - 32) * 5 / 9 =
      ((rndHalfEven ((x - 32) * 5 / 9 * 10) : ℚ) - (x - 32) * 5 / 9 * 10) / 10 := by
    ring
  rw [hrw, abs_div]
  rw [show |(10 : ℚ)| = 10 by norm_num]
  linarith [h]

/-- C8: for every non-negative `x`, the inch-to-centimeter conversion returns
the integer floor of `x * 2.54`; a value whose unit check reports centimeters
passes through the conversion step unchanged; and the Fahrenheit-to-Celsius
conversion returns `(x - 32) * 5/9` rounded to one decimal place (an integer
number of tenths, within half a tenth of the exact value). -/
theorem C8_unit_conversions (x : ℚ) (h : 0 ≤ x) :
    inches_to_cm x = ⌊x * (2.54 : ℚ)⌋ ∧
    (∀ v : ℕ, applyLenUnit v false = v) ∧
    (∃ n : ℤ, fahrenheit_to_celsius x = (n : ℚ) / 10 ∧
      |fahrenheit_to_celsius x - (x - 32) * 5 / 9| ≤ 1 / 20) := by
  refine ⟨?_, fun v => rfl, ⟨rndHalfEven ((x - 32) * 5 / 9 * 10), rfl, fahrenheit_within x⟩⟩
  unfold inches_to_cm
  exact pyint_eq_floor _ (by positivity)

/-- Witness for C8 at `x = 3`. -/
theorem C8_unit_conversions_w :
    (0 : ℚ) ≤ 3 ∧
    (inches_to_cm 3 = ⌊(3 : ℚ) * (2.54 : ℚ)⌋ ∧
     (∀ v : ℕ, applyLenUnit v false = v) ∧
     (∃ n : ℤ, fahrenheit_to_celsius 3 = (n : ℚ) / 10 ∧
       |fahrenheit_to_celsius 3 - ((3 : ℚ) - 32) * 5 / 9| ≤ 1 / 20)) :=
  ⟨by norm_num, C8_unit_conversions 3 (by norm_num)⟩

theorem fieldStep_refl (o : Option ℕ) (P : ℕ → Prop) : fieldStep o o P := Or.inl rfl

theorem fieldStep_trans {a b c : Option ℕ} {P : ℕ → Prop}
    (h1 : fieldStep a b P) (h2 : fieldStep b c P) : fieldStep a c P := by
  rcases h2 with h2 | ⟨v, hv, hP⟩
  · rwa [h2]
  · exact Or.inr ⟨v, hv, hP⟩

theorem cascadeStep_refl (r : Rec) : cascadeStep r r :=
  ⟨rfl, rfl, rfl, rfl, rfl, rfl, rfl, fieldStep_refl _ _, fieldStep_refl _ _,
   fieldStep_refl _ _, fieldStep_refl _ _, fieldStep_refl _ _⟩

theorem cascadeStep_trans {a b c : Rec} (h1 : cascadeStep a b) (h2 : cascadeStep b c) :
    cascadeStep a c := by
  obtain ⟨e1, e2, e3, e4, e5, e6, e7, f1, f2, f3, f4, f5⟩ := h1
  obtain ⟨g1, g2, g3, g4, g5, g6, g7, k1, k2, k3, k4, k5⟩ := h2
  exact ⟨g1.trans e1, g2.trans e2, g3.trans e3, g4.trans e4, g5.trans e5, g6.trans e6,
    g7.trans e7, fieldStep_trans f1 k1, fieldStep_trans f2 k2, fieldStep_trans f3 k3,
    fieldStep_trans f4 k4, fieldStep_trans f5 k5⟩

theorem assignKey_cascade (key : String) (v : ℕ) (r : Rec)
    (hd : (key = "base_depth" ∨ key = "summit_depth") → depthOk v)
    (hs : (key = "24h_snow" ∨ key = "48h_snow" ∨ key = "7d_snow") → snowOk v) :
    cascadeStep r (assignKey key v r) := by
  unfold assignKey
  split_ifs with h1 h2 h3 h4 h5
  · exact ⟨rfl, rfl, rfl, rfl, rfl, rfl, rfl,
      Or.inr ⟨v, rfl, hd (Or.inl (by simpa using h1))⟩, fieldStep_refl _ _,
      fieldStep_refl _ _, fieldStep_refl _ _, fieldStep_refl _ _⟩
  · exact ⟨rfl, rfl, rfl, rfl, rfl, rfl, rfl, fieldStep_refl _ _,
      Or.inr ⟨v, rfl, hd (Or.inr (by simpa using h2))⟩,
      fieldStep_refl _ _, fieldStep_refl _ _, fieldStep_refl _ _⟩
  · exact ⟨rfl, rfl, rfl, rfl, rfl, rfl, rfl, fieldStep_refl _ _, fieldStep_refl _ _,
      Or.inr ⟨v, rfl, hs (Or.inl (by simpa using h3))⟩,
      fieldStep_refl _ _, fieldStep_refl _ _⟩
  · exact ⟨rfl, rfl, rfl, rfl, rfl, rfl, rfl, fieldStep_refl _ _, fieldStep_refl _ _,
      fieldStep_refl _ _, Or.inr ⟨v, rfl, hs (Or.inr (Or.inl (by simpa using h4)))⟩,
      fieldStep_refl _ _⟩
  · exact ⟨rfl, rfl, rfl, rfl, rfl, rfl, rfl, fieldStep_refl _ _, fieldStep_refl _ _,
      fieldStep_refl _ _, fieldStep_refl _ _,
      Or.inr ⟨v, rfl, hs (Or.inr (Or.inr (by simpa using h5)))⟩⟩
  · exact cascadeStep_refl r

theorem tryMatches_cascade (ii : Bool) (t : List Char) (key : String) :
    ∀ (ms : List MRes) (r : Rec), cascadeStep r (tryMatches ii t key ms r) := by
  intro ms
  induction ms with
  | nil => intro r; exact cascadeStep_refl r
  | cons m ms ih =>
    intro r
    rw [tryMatches]
    cases hp : parseNatL (grpStr t m 1) with
    | none => exact ih r
    | some value =>
      dsimp only
      split_ifs with h1 h2
      · exact ih r
      · exact ih r
      · refine assignKey_cascade _ _ _ (fun hk => ?_) (fun hk => ?_)
        · rcases hk with hk | hk <;> subst hk <;> simp at h1 <;>
            exact ⟨by omega, by omega⟩
        · rcases hk with hk | hk | hk <;> subst hk <;> simp at h2 <;>
            simpa [snowOk] using h2

theorem tryPats_cascade (ii : Bool) (t : List Char) (key : String) :
    ∀ (ps : List RE) (r : Rec), cascadeStep r (tryPats ii t key ps r) := by
  intro ps
  induction ps with
  | nil => intro r; exact cascadeStep_refl r
  | cons p ps ih =>
    intro r
    rw [tryPats]
    split_ifs with h
    · exact tryMatches_cascade ii t key _ r
    · exact cascadeStep_trans (tryMatches_cascade ii t key _ r) (ih _)

theorem strat4Go_cascade (ii : Bool) (t : List Char) :
    ∀ (tab : List (String × List RE)) (r : Rec), cascadeStep r (strat4Go ii t tab r) := by
  intro tab
  induction tab with
  | nil => intro r; exact cascadeStep_refl r
  | cons e tab ih =>
    intro r
    obtain ⟨k, ps⟩ := e
    rw [strat4Go]
    split_ifs with h
    · exact ih r
    · exact cascadeStep_trans (tryPats_cascade ii t k ps r) (ih _)

theorem strat4_cascade (t : List Char) (r : Rec) : cascadeStep r (strat4 t r) := by
  unfold strat4
  exact strat4Go_cascade _ t patTable r

theorem liftsRuns_fields (t : List Char) (r : Rec) :
    (liftsRuns t r).scraped_url = r.scraped_url ∧
    (liftsRuns t r).scrape_date = r.scrape_date ∧
    (liftsRuns t r).snow_depth_base_cm = r.snow_depth_base_cm ∧
    (liftsRuns t r).snow_depth_summit_cm = r.snow_depth_summit_cm ∧
    (liftsRuns t r).new_snow_24h_cm = r.new_snow_24h_cm ∧
    (liftsRuns t r).new_snow_48h_cm = r.new_snow_48h_cm ∧
    (liftsRuns t r).new_snow_7d_cm = r.new_snow_7d_cm ∧
    (liftsRuns t r).temperature_base_c = r.temperature_base_c := by
  unfold liftsRuns
  repeat' split
  all_goals simp

theorem liftsRuns_pairs (t : List Char) (r : Rec) :
    (((liftsRuns t r).lifts_open = r.lifts_open ∧ (liftsRuns t r).lifts_total = r.lifts_total) ∨
      ((liftsRuns t r).lifts_open.isSome ∧ (liftsRuns t r).lifts_total.isSome)) ∧
    (((liftsRuns t r).runs_open = r.runs_open ∧ (liftsRuns t r).runs_total = r.runs_total) ∨
      ((liftsRuns t r).runs_open.isSome ∧ (liftsRuns t r).runs_total.isSome)) := by
  unfold liftsRuns
  repeat' split
  all_goals simp

theorem tempStep_fields (t : List Char) (r : Rec) :
    (tempStep t r).scraped_url = r.scraped_url ∧
    (tempStep t r).scrape_date = r.scrape_date ∧
    (tempStep t r).snow_depth_base_cm = r.snow_depth_base_cm ∧
    (tempStep t r).snow_depth_summit_cm = r.snow_depth_summit_cm ∧
    (tempStep t r).new_snow_24h_cm = r.new_snow_24h_cm ∧
    (tempStep t r).new_snow_48h_cm = r.new_snow_48h_cm ∧
    (tempStep t r).new_snow_7d_cm = r.new_snow_7d_cm ∧
    (tempStep t r).lifts_open = r.lifts_open ∧
    (tempStep t r).lifts_total = r.lifts_total ∧
    (tempStep t r).runs_open = r.runs_open ∧
    (tempStep t r).runs_total = r.runs_total := by
  unfold tempStep
  repeat' split
  all_goals simp

theorem updJson_ratio_fields (r : Rec) (j : Option ℕ) :
    (updJson r j).lifts_open = r.lifts_open ∧
    (updJson r j).lifts_total = r.lifts_total ∧
    (updJson r j).runs_open = r.runs_open ∧
    (updJson r j).runs_total = r.runs_total := by
  unfold updJson
  repeat' split
  all_goals simp

theorem updMeta_ratio_fields (r : Rec) (p : Option ℕ × Option ℕ) :
    (updMeta r p).lifts_open = r.lifts_open ∧
    (updMeta r p).lifts_total = r.lifts_total ∧
    (updMeta r p).runs_open = r.runs_open ∧
    (updMeta r p).runs_total = r.runs_total := by
  unfold updMeta
  repeat' split
  all_goals simp

theorem strat3Base_ratio_fields (txt : List Char) (r : Rec) :
    (strat3Base txt r).lifts_open = r.lifts_open ∧
    (strat3Base txt r).lifts_total = r.lifts_total ∧
    (strat3Base txt r).runs_open = r.runs_open ∧
    (strat3Base txt r).runs_total = r.runs_total := by
  unfold strat3Base
  repeat' split
  all_goals simp

theorem strat3Summit_ratio_fields (txt : List Char) (r : Rec) :
    (strat3Summit txt r).lifts_open = r.lifts_open ∧
    (strat3Summit txt r).lifts_total = r.lifts_total ∧
    (strat3Summit txt r).runs_open = r.runs_open ∧
    (strat3Summit txt r).runs_total = r.runs_total := by
  unfold strat3Summit
  repeat' split
  all_goals simp

theorem strat3Step_ratio_fields (r : Rec) (t : String) :
    (strat3Step r t).lifts_open = r.lifts_open ∧
    (strat3Step r t).lifts_total = r.lifts_total ∧
    (strat3Step r t).runs_open = r.runs_open ∧
    (strat3Step r t).runs_total = r.runs_total := by
  unfold strat3Step
  obtain ⟨a1, a2, a3, a4⟩ := strat3Summit_ratio_fields (stripWs t.data) (strat3Base (stripWs t.data) r)
  obtain ⟨b1, b2, b3, b4⟩ := strat3Base_ratio_fields (stripWs t.data) r
  exact ⟨a1.trans b1, a2.trans b2, a3.trans b3, a4.trans b4⟩

theorem strat3_ratio_fields (conts : List String) :
    ∀ r : Rec,
      (strat3 conts r).lifts_open = r.lifts_open ∧
      (strat3 conts r).lifts_total = r.lifts_total ∧
      (strat3 conts r).runs_open = r.runs_open ∧
      (strat3 conts r).runs_total = r.runs_total := by
  induction conts with
  | nil => intro r; exact ⟨rfl, rfl, rfl, rfl⟩
  | cons c cs ih =>
    intro r
    show (strat3 cs (strat3Step r c)).lifts_open = r.lifts_open ∧ _
    obtain ⟨a1, a2, a3, a4⟩ := ih (strat3Step r c)
    obtain ⟨b1, b2, b3, b4⟩ := strat3Step_ratio_fields r c
    exact ⟨a1.trans b1, a2.trans b2, a3.trans b3, a4.trans b4⟩

theorem pre4_ratio_none (d : Doc) (url : String) (today : ℕ) :
    (pre4 d url today).lifts_open = none ∧
    (pre4 d url today).lifts_total = none ∧
    (pre4 d url today).runs_open = none ∧
    (pre4 d url today).runs_total = none := by
  unfold pre4
  obtain ⟨a1, a2, a3, a4⟩ := strat3_ratio_fields d.snowContainers
    (updMeta (updJson (initRec url today) (find_json_data d.dataSnow))
      (extract_from_meta_tags d.metas))
  obtain ⟨b1, b2, b3, b4⟩ := updMeta_ratio_fields
    (updJson (initRec url today) (find_json_data d.dataSnow)) (extract_from_meta_tags d.metas)
  obtain ⟨c1, c2, c3, c4⟩ := updJson_ratio_fields (initRec url today) (find_json_data d.dataSnow)
  refine ⟨?_, ?_, ?_, ?_⟩
  · rw [a1, b1, c1]; rfl
  · rw [a2, b2, c2]; rfl
  · rw [a3, b3, c3]; rfl
  · rw [a4, b4, c4]; rfl

/-- C1, amended: sanity bounds are enforced only inside the full-text regex
strategy.  Relative to the record after the first three strategies, the regex
stage either leaves each depth/snowfall field unchanged or sets it to a value
inside its bound; fields set by the earlier strategies are not re-checked. -/
theorem C1_regex_strategy_bounds (d : Doc) (url : String) (today : ℕ) :
    fieldStep (pre4 d url today).snow_depth_base_cm
      (parse_snow_report_generic d url today).snow_depth_base_cm depthOk ∧
    fieldStep (pre4 d url today).snow_depth_summit_cm
      (parse_snow_report_generic d url today).snow_depth_summit_cm depthOk ∧
    fieldStep (pre4 d url today).new_snow_24h_cm
      (parse_snow_report_generic d url today).new_snow_24h_cm snowOk ∧
    fieldStep (pre4 d url today).new_snow_48h_cm
      (parse_snow_report_generic d url today).new_snow_48h_cm snowOk ∧
    fieldStep (pre4 d url today).new_snow_7d_cm
      (parse_snow_report_generic d url today).new_snow_7d_cm snowOk := by
  unfold parse_snow_report_generic
  obtain ⟨t1, t2, t3, t4, t5, t6, t7, t8, t9, t10, t11⟩ :=
    tempStep_fields d.text.data (liftsRuns d.text.data (strat4 d.text.data (pre4 d url today)))
  obtain ⟨l1, l2, l3, l4, l5, l6, l7, l8⟩ :=
    liftsRuns_fields d.text.data (strat4 d.text.data (pre4 d url today))
  obtain ⟨c1, c2, c3, c4, c5, c6, c7, c8, c9, c10, c11, c12⟩ :=
    strat4_cascade d.text.data (pre4 d url today)
  exact ⟨by rw [t3, l3]; exact c8, by rw [t4, l4]; exact c9, by rw [t5, l5]; exact c10,
    by rw [t6, l6]; exact c11, by rw [t7, l7]; exact c12⟩

/-- C1, counterexample to the claim as stated: a base depth of 4000 cm coming
from the meta-tag strategy survives to the final MergedRecord even though it
violates the depth sanity bound. -/
theorem C1_claim_cex :
    (parse_snow_report_generic docMetaHuge "u" 0).snow_depth_base_cm = some 4000 ∧
    ¬ depthOk 4000 := by
  constructor
  · decide
  · unfold depthOk
    omega

theorem parse_pairs (d : Doc) (url : String) (today : ℕ) :
    bonBoth (parse_snow_report_generic d url today) := by
  unfold parse_snow_report_generic bonBoth
  obtain ⟨t1, t2, t3, t4, t5, t6, t7, t8, t9, t10, t11⟩ :=
    tempStep_fields d.text.data (liftsRuns d.text.data (strat4 d.text.data (pre4 d url today)))
  rw [t8, t9, t10, t11]
  obtain ⟨hl, hr⟩ := liftsRuns_pairs d.text.data (strat4 d.text.data (pre4 d url today))
  obtain ⟨p1, p2, p3, p4⟩ := pre4_ratio_none d url today
  obtain ⟨c1, c2, c3, c4, c5, c6, c7, c8, c9, c10, c11, c12⟩ :=
    strat4_cascade d.text.data (pre4 d url today)
  constructor
  · rcases hl with ⟨e1, e2⟩ | ⟨s1, s2⟩
    · rw [e1, e2, c3, c4, p1, p2]
    · rw [s1, s2]
  · rcases hr with ⟨e1, e2⟩ | ⟨s1, s2⟩
    · rw [e1, e2, c5, c6, p3, p4]
    · rw [s1, s2]

theorem vailStep_ratio_fields (txt par : String) (r : Rec) :
    (vailStep txt par r).lifts_open = r.lifts_open ∧
    (vailStep txt par r).lifts_total = r.lifts_total ∧
    (vailStep txt par r).runs_open = r.runs_open ∧
    (vailStep txt par r).runs_total = r.runs_total := by
  unfold vailStep
  split
  · exact ⟨rfl, rfl, rfl, rfl⟩
  · dsimp only
    split_ifs <;> simp

theorem vailPass_ratio_fields :
    ∀ (es : List (String × String)) (r : Rec),
      (vailPass es r).lifts_open = r.lifts_open ∧
      (vailPass es r).lifts_total = r.lifts_total ∧
      (vailPass es r).runs_open = r.runs_open ∧
      (vailPass es r).runs_total = r.runs_total := by
  intro es
  induction es with
  | nil => intro r; exact ⟨rfl, rfl, rfl, rfl⟩
  | cons e rest ih =>
    intro r
    obtain ⟨txt, par⟩ := e
    rw [vailPass]
    obtain ⟨a1, a2, a3, a4⟩ := ih (vailStep txt par r)
    obtain ⟨b1, b2, b3, b4⟩ := vailStep_ratio_fields txt par r
    exact ⟨a1.trans b1, a2.trans b2, a3.trans b3, a4.trans b4⟩

theorem mergeN_none (b : Option ℕ) : mergeN none b = b := by
  cases b <;> simp [mergeN, truthyN]

theorem tryUrls_some_bon (fetch : String → Option Doc) (today : ℕ) :
    ∀ (urls : List String) (r : Rec),
      (tryUrls fetch today urls).1 = some r → bonBoth r := by
  intro urls
  induction urls with
  | nil => intro r h; exact absurd h (by simp [tryUrls])
  | cons u rest ih =>
    intro r h
    rw [tryUrls] at h
    cases hf : fetch u with
    | none =>
      rw [hf] at h
      dsimp only at h
      exact ih r h
    | some d =>
      rw [hf] at h
      dsimp only at h
      by_cases hm : meaningful (parse_snow_report_generic d u today) = true
      · rw [if_pos hm] at h
        simp only [Option.some.injEq] at h
        subst h
        exact parse_pairs d u today
      · rw [if_neg hm] at h
        dsimp only at h
        exact ih r h

theorem vailSpecialized_ratio_none (d : Doc) (url : String) (today : ℕ) :
    (vailSpecialized d url today).lifts_open = none ∧
    (vailSpecialized d url today).lifts_total = none ∧
    (vailSpecialized d url today).runs_open = none ∧
    (vailSpecialized d url today).runs_total = none := by
  unfold vailSpecialized
  obtain ⟨a1, a2, a3, a4⟩ := vailPass_ratio_fields d.vailElems (initRec url today)
  exact ⟨a1.trans rfl, a2.trans rfl, a3.trans rfl, a4.trans rfl⟩

/-- C7, amended: in every record the engine emits, the lift pair and the run
pair are present both-or-neither (the generic cascade, the per-resort
orchestration, and the Vail specialized scraper).  The paired-count inequality
`open ≤ total` claimed by the specification is not enforced (see the
counterexample). -/
theorem C7_pairs_both_or_neither (d : Doc) (url : String) (today : ℕ)
    (fetch fetch2 : String → Option Doc) (rd rd2 : ResortData) :
    bonBoth (parse_snow_report_generic d url today) ∧
    bonBoth (scrape_resort fetch rd today).1 ∧
    bonBoth (vail_scrape fetch2 rd2 today).1 := by
  refine ⟨parse_pairs d url today, ?_, ?_⟩
  · unfold scrape_resort
    dsimp only
    cases hres : (tryUrls fetch today (candidateUrls rd)).1 with
    | some r => exact tryUrls_some_bon fetch today (candidateUrls rd) r hres
    | none => exact ⟨rfl, rfl⟩
  · unfold vail_scrape
    cases hu : pyOrS rd2.snow_report_url rd2.website_url with
    | none => exact ⟨rfl, rfl⟩
    | some url2 =>
      dsimp only
      cases hf : fetch2 url2 with
      | none => exact ⟨rfl, rfl⟩
      | some d2 =>
        dsimp only
        obtain ⟨w1, w2, w3, w4⟩ := vailSpecialized_ratio_none d2 url2 today
        by_cases hb : truthyN (vailSpecialized d2 url2 today).snow_depth_base_cm = true
        · rw [if_pos hb]
          exact ⟨by rw [w1, w2], by rw [w3, w4]⟩
        · rw [if_neg hb]
          obtain ⟨g1, g2⟩ := parse_pairs d2 url2 today
          constructor
          · show (mergeRecs _ _).lifts_open.isSome = (mergeRecs _ _).lifts_total.isSome
            unfold mergeRecs
            dsimp only
            rw [w1, w2, mergeN_none, mergeN_none]
            exact g1
          · show (mergeRecs _ _).runs_open.isSome = (mergeRecs _ _).runs_total.isSome
            unfold mergeRecs
            dsimp only
            rw [w3, w4, mergeN_none, mergeN_none]
            exact g2

/-- C7, counterexample to the inequality half of the claim: the document text
"15/10 lifts open" yields a record with lifts_open = 15 above lifts_total = 10. -/
theorem C7_open_le_total_cex :
    (parse_snow_report_generic docRatio "u" 0).lifts_open = some 15 ∧
    (parse_snow_report_generic docRatio "u" 0).lifts_total = some 10 ∧
    ¬ (15 ≤ 10) := by
  refine ⟨by decide, by decide, by omega⟩

/-- C2, code evaluation at the failing input: the meta-tag strategy resolves
the base depth to 20 cm, yet the full cascade's final record carries the regex
strategy's 100 cm — the later strategy overwrote the earlier one because the
already-found lookup uses the key `basedepth`, which is never a populated
field. -/
theorem C2_first_wins_code_eval :
    (extract_from_meta_tags docMetaText.metas).1 = some 20 ∧
    (parse_snow_report_generic docMetaText "u" 0).snow_depth_base_cm = some 100 := by
  constructor
  · decide
  · decide

/-- C3, code evaluation at the scenario document: base, summit, lift counts
match the specification's expectation, but the 24-hour snowfall field ends at
106 cm (the last matching pattern's value) instead of the claimed 20 cm. -/
theorem C3_scenario_code_eval :
    parse_snow_report_generic docScenario "u" 0 =
      { scraped_url := some "u", scrape_date := some 0,
        snow_depth_base_cm := some 106, snow_depth_summit_cm := some 154,
        new_snow_24h_cm := some 106, new_snow_48h_cm := none, new_snow_7d_cm := none,
        lifts_open := some 5, lifts_total := some 10, runs_open := none,
        runs_total := none, temperature_base_c := none } := by
  decide

theorem tryUrls_all_skip (fetch : String → Option Doc) (today : ℕ) :
    ∀ urls : List String, (∀ u ∈ urls, notMeaningfulUrl fetch today u) →
      tryUrls fetch today urls = (none, urls) := by
  intro urls
  induction urls with
  | nil => intro _; rfl
  | cons u rest ih =>
    intro h
    rw [tryUrls]
    cases hf : fetch u with
    | none =>
      dsimp only
      rw [ih (fun v hv => h v (List.mem_cons_of_mem u hv))]
    | some d =>
      dsimp only
      have hm := h u (List.mem_cons_self u rest) d hf
      rw [if_neg (by rw [hm]; exact Bool.false_ne_true)]
      rw [ih (fun v hv => h v (List.mem_cons_of_mem u hv))]

theorem tryUrls_first_meaningful (fetch : String → Option Doc) (today : ℕ)
    (u : String) (rest : List String) (d : Doc)
    (hf : fetch u = some d)
    (hm : meaningful (parse_snow_report_generic d u today) = true) :
    ∀ pre : List String, (∀ v ∈ pre, notMeaningfulUrl fetch today v) →
      tryUrls fetch today (pre ++ u :: rest) =
        (some (parse_snow_report_generic d u today), pre ++ [u]) := by
  intro pre
  induction pre with
  | nil =>
    intro _
    rw [List.nil_append, tryUrls, hf]
    dsimp only
    rw [if_pos hm]
    rfl
  | cons v pre ih =>
    intro h
    rw [List.cons_append, tryUrls]
    cases hv : fetch v with
    | none =>
      dsimp only
      rw [ih (fun w hw => h w (List.mem_cons_of_mem v hw))]
      rfl
    | some dv =>
      dsimp only
      have hnm := h v (List.mem_cons_self v pre) dv hv
      rw [if_neg (by rw [hnm]; exact Bool.false_ne_true)]
      rw [ih (fun w hw => h w (List.mem_cons_of_mem v hw))]
      rfl

/-- C4, amended: the orchestration returns the record of the first candidate
URL whose fetch succeeds and whose extraction passes the meaningful check —
which requires a truthy (nonzero) value, not mere presence — and
once that record is obtained only the URLs up to and including it have been
fetched. -/
theorem C4_first_meaningful_wins (fetch : String → Option Doc) (rd : ResortData)
    (today : ℕ) (pre rest : List String) (u : String) (d : Doc)
    (hurls : candidateUrls rd = pre ++ u :: rest)
    (hpre : ∀ v ∈ pre, notMeaningfulUrl fetch today v)
    (hf : fetch u = some d)
    (hm : meaningful (parse_snow_report_generic d u today) = true) :
    scrape_resort fetch rd today = (parse_snow_report_generic d u today, pre ++ [u]) := by
  unfold scrape_resort
  rw [hurls, tryUrls_first_meaningful fetch today u rest d hf hm pre hpre]

/-- Witness for C4 at a single-URL resort whose document is meaningful. -/
theorem C4_first_meaningful_wins_w :
    candidateUrls rdOne = [] ++ "u2" :: [] ∧
    meaningful (parse_snow_report_generic docBase50 "u2" 0) = true ∧
    scrape_resort fetchTwo rdOne 0 = (parse_snow_report_generic docBase50 "u2" 0, [] ++ ["u2"]) :=
  ⟨by decide, by decide,
    C4_first_meaningful_wins fetchTwo rdOne 0 [] [] "u2" docBase50 (by decide)
      (fun v hv => absurd hv (List.not_mem_nil v)) rfl (by decide)⟩

/-- C4, counterexample to the claim as stated: the first URL's record carries
a present 24-hour snowfall field (value 0), yet the orchestrator fetches the
second URL and returns its record. -/
theorem C4_presence_cex :
    (parse_snow_report_generic docZeroSnow "u1" 0).new_snow_24h_cm = some 0 ∧
    (scrape_resort fetchTwo rdTwo 0).2 = ["u1", "u2"] ∧
    (scrape_resort fetchTwo rdTwo 0).1.scraped_url = some "u2" := by
  refine ⟨by decide, by decide, by decide⟩

/-- C5, amended: when every candidate is exhausted without a meaningful
record, the orchestration returns a minimal record carrying the snow-report
URL if present else the website URL (the first-listed candidate, not the
last-tried one) plus the capture date, with every measurement field absent. -/
theorem C5_exhausted_minimal (fetch : String → Option Doc) (rd : ResortData) (today : ℕ)
    (h : ∀ u ∈ candidateUrls rd, notMeaningfulUrl fetch today u) :
    scrape_resort fetch rd today =
      ({ emptyRec with
          scraped_url := pyOrS rd.snow_report_url rd.website_url,
          scrape_date := some today }, candidateUrls rd) ∧
    (scrape_resort fetch rd today).1.snow_depth_base_cm = none ∧
    (scrape_resort fetch rd today).1.snow_depth_summit_cm = none ∧
    (scrape_resort fetch rd today).1.new_snow_24h_cm = none ∧
    (scrape_resort fetch rd today).1.lifts_open = none ∧
    (scrape_resort fetch rd today).1.runs_open = none ∧
    (scrape_resort fetch rd today).1.temperature_base_c = none := by
  have hmain : scrape_resort fetch rd today =
      ({ emptyRec with
          scraped_url := pyOrS rd.snow_report_url rd.website_url,
          scrape_date := some today }, candidateUrls rd) := by
    unfold scrape_resort
    rw [tryUrls_all_skip fetch today (candidateUrls rd) h]
  refine ⟨hmain, ?_, ?_, ?_, ?_, ?_, ?_⟩ <;> (rw [hmain]; rfl)

/-- Witness for C5: both fetches fail. -/
theorem C5_exhausted_minimal_w :
    scrape_resort fetchFail rdAB 5 =
      ({ emptyRec with scraped_url := some "a", scrape_date := some 5 }, ["a", "b"]) ∧
    (scrape_resort fetchFail rdAB 5).1.snow_depth_base_cm = none ∧
    (scrape_resort fetchFail rdAB 5).1.snow_depth_summit_cm = none ∧
    (scrape_resort fetchFail rdAB 5).1.new_snow_24h_cm = none ∧
    (scrape_resort fetchFail rdAB 5).1.lifts_open = none ∧
    (scrape_resort fetchFail rdAB 5).1.runs_open = none ∧
    (scrape_resort fetchFail rdAB 5).1.temperature_base_c = none :=
  C5_exhausted_minimal fetchFail rdAB 5 (fun u _ d hd => by cases hd)

/-- C5, counterexample to the claim as stated: with two exhausted candidates
the minimal record carries the first URL, while the last-tried URL is the
second. -/
theorem C5_last_url_cex :
    (scrape_resort fetchFail rdAB 5).1.scraped_url = some "a" ∧
    (scrape_resort fetchFail rdAB 5).2 = ["a", "b"] ∧
    "a" ≠ "b" := by
  refine ⟨by decide, by decide, by decide⟩

/-- C6, amended: the Vail scraper consults the Generic Extractor only when the
specialized pass left the base depth absent or zero; when it does, the merge
fills fields the specialized pass left absent or falsy, and a truthy
specialized value always takes precedence over the generic value. -/
theorem C6_vail_fallback (fetch : String → Option Doc) (rd : ResortData) (today : ℕ)
    (u : String) (d : Doc)
    (hu : pyOrS rd.snow_report_url rd.website_url = some u)
    (hf : fetch u = some d) :
    (truthyN (vailSpecialized d u today).snow_depth_base_cm = true →
      vail_scrape fetch rd today = (vailSpecialized d u today, [u])) ∧
    (truthyN (vailSpecialized d u today).snow_depth_base_cm = false →
      vail_scrape fetch rd today =
        (mergeRecs (vailSpecialized d u today) (parse_snow_report_generic d u today), [u])) ∧
    (∀ a g : Rec, truthyN a.snow_depth_base_cm = true →
      (mergeRecs a g).snow_depth_base_cm = a.snow_depth_base_cm) ∧
    (∀ a g : Rec, truthyN a.snow_depth_summit_cm = true →
      (mergeRecs a g).snow_depth_summit_cm = a.snow_depth_summit_cm) := by
  refine ⟨?_, ?_, ?_, ?_⟩
  · intro hb
    unfold vail_scrape
    rw [hu]
    dsimp only
    rw [hf]
    dsimp only
    rw [if_pos hb]
  · intro hb
    unfold vail_scrape
    rw [hu]
    dsimp only
    rw [hf]
    dsimp only
    rw [if_neg (by rw [hb]; exact Bool.false_ne_true)]
  · intro a g ht
    show mergeN a.snow_depth_base_cm g.snow_depth_base_cm = a.snow_depth_base_cm
    unfold mergeN
    cases g.snow_depth_base_cm
    · rfl
    · dsimp only
      rw [if_pos ht]
  · intro a g ht
    show mergeN a.snow_depth_summit_cm g.snow_depth_summit_cm = a.snow_depth_summit_cm
    unfold mergeN
    cases g.snow_depth_summit_cm
    · rfl
    · dsimp only
      rw [if_pos ht]

/-- Witness for C6: the specialized pass finds nothing, so the fallback merge
with the generic record is returned. -/
theorem C6_vail_fallback_w :
    pyOrS rdVail.snow_report_url rdVail.website_url = some "vu" ∧
    truthyN (vailSpecialized docSummitOnly "vu" 0).snow_depth_base_cm = false ∧
    vail_scrape fetchSummitOnly rdVail 0 =
      (mergeRecs (vailSpecialized docSummitOnly "vu" 0)
        (parse_snow_report_generic docSummitOnly "vu" 0), ["vu"]) :=
  ⟨by decide, by decide,
    (C6_vail_fallback fetchSummitOnly rdVail 0 "vu" docSummitOnly (by decide)
      (by decide)).2.1 (by decide)⟩

/-- C6, counterexample to the claim as stated: the specialized pass resolves
the base depth, so the Generic Extractor is never invoked and the summit
depth, which the generic pass would have resolved to 30 cm, remains absent. -/
theorem C6_unresolved_not_filled_cex :
    (vail_scrape fetchVailBase rdVail 0).1.snow_depth_summit_cm = none ∧
    (parse_snow_report_generic docVailBase "vu" 0).snow_depth_summit_cm = some 30 ∧
    (vailSpecialized docVailBase "vu" 0).snow_depth_base_cm = some 101 := by
  refine ⟨by decide, by decide, by decide⟩

/-- C9: with no candidate URL the Vail scraper returns the completely empty
record without fetching; with a chosen URL whose fetch fails it returns the
completely empty record — no source URL, no capture date — and no other URL is
ever attempted. -/
theorem C9_vail_fetch_failure (fetch : String → Option Doc) (rd : ResortData) (today : ℕ) :
    (pyOrS rd.snow_report_url rd.website_url = none →
      vail_scrape fetch rd today = (emptyRec, [])) ∧
    (∀ u, pyOrS rd.snow_report_url rd.website_url = some u → fetch u = none →
      vail_scrape fetch rd today = (emptyRec, [u]) ∧
      emptyRec.scraped_url = none ∧ emptyRec.scrape_date = none ∧
      ∀ w, w ≠ u → w ∉ (vail_scrape fetch rd today).2) := by
  constructor
  · intro hu
    unfold vail_scrape
    rw [hu]
  · intro u hu hf
    have hv : vail_scrape fetch rd today = (emptyRec, [u]) := by
      unfold vail_scrape
      rw [hu]
      dsimp only
      rw [hf]
    refine ⟨hv, rfl, rfl, ?_⟩
    intro w hw
    rw [hv]
    simp [hw]

/-- Witness for C9: the chosen snow-report URL fails to fetch; the website URL
is never attempted. -/
theorem C9_vail_fetch_failure_w :
    pyOrS rdVail.snow_report_url rdVail.website_url = some "vu" ∧
    fetchFail "vu" = none ∧
    vail_scrape fetchFail rdVail 0 = (emptyRec, ["vu"]) ∧
    emptyRec.scraped_url = none ∧ emptyRec.scrape_date = none ∧
    "w2" ∉ (vail_scrape fetchFail rdVail 0).2 := by
  have h := (C9_vail_fetch_failure fetchFail rdVail 0).2 "vu" (by decide) rfl
  exact ⟨by decide, rfl, h.1, h.2.1, h.2.2.1, h.2.2.2 "w2" (by decide)⟩

/-- C10: when no Fahrenheit token matches anywhere and the Celsius pattern
selects a match whose text carries no `f` marker, a captured value above 50 is
converted as Fahrenheit despite the explicit Celsius marker, and a value of at
most 50 is kept unconverted. -/
theorem C10_temperature_fahrenheit_default (d : Doc) (url : String) (today : ℕ)
    (m : MRes) (v : ℤ)
    (h1 : reSearch (FU d.text.data) tempFRe d.text.data = none)
    (h2 : reSearch (FU d.text.data) tempCRe d.text.data = some m)
    (h3 : parseIntL (grpStr d.text.data m 1) = some v)
    (h4 : subL "f".data (lowerL (g0 d.text.data m)) = false) :
    (parse_snow_report_generic d url today).temperature_base_c =
      some (if 50 < v then fahrenheit_to_celsius (v : ℚ) else (v : ℚ)) := by
  unfold parse_snow_report_generic tempStep tempRes
  rw [h1]
  dsimp only
  rw [h2]
  dsimp only
  rw [h3]
  dsimp only
  rw [h4]
  simp only [Bool.false_or, decide_eq_true_eq]
  split_ifs with hv
  · rfl
  · rfl

/-- Witness for C10: the document text "60 C " resolves through the Celsius
pattern with value 60 and is converted as Fahrenheit. -/
theorem C10_temperature_fahrenheit_default_w :
    reSearch (FU docCelsius60.text.data) tempFRe docCelsius60.text.data = none ∧
    reSearch (FU docCelsius60.text.data) tempCRe docCelsius60.text.data =
      some ⟨0, 5, [(1, 0, 2)]⟩ ∧
    parseIntL (grpStr docCelsius60.text.data ⟨0, 5, [(1, 0, 2)]⟩ 1) = some 60 ∧
    subL "f".data (lowerL (g0 docCelsius60.text.data ⟨0, 5, [(1, 0, 2)]⟩)) = false ∧
    (parse_snow_report_generic docCelsius60 "ut" 0).temperature_base_c =
      some (if 50 < (60 : ℤ) then fahrenheit_to_celsius ((60 : ℤ) : ℚ) else ((60 : ℤ) : ℚ)) :=
  ⟨by decide, by decide, by decide, by decide,
    C10_temperature_fahrenheit_default docCelsius60 "ut" 0 ⟨0, 5, [(1, 0, 2)]⟩ 60
      (by decide) (by decide) (by decide) (by decide)⟩

end SnowScraper
